import Mathlib

/-!
# Verification of the `filterables` filter compiler against its specification

Shallow embedding of the `filterables` Python library (filter compilation,
type registry, sorting and pagination) and proofs about the behaviour its
specification claims.

Sources embedded:
* `src/filterables/types.py`   — comparable kinds, column-type registry,
  JSON-type token registry (`get_column_type_for_value`,
  `get_json_type_for_value`).
* `src/filterables/filters.py` — the filter compiler (`create_chain`,
  `create_caster`, `create_guard`, `get_child_ref`, `get_value_ref`,
  `get_value_types`, `is_column_type`, the `Filter` implementations and
  `Filters.bind`).
* `src/filterables/sorters.py` — `SimpleSorter`.
* `src/filterables/pages.py`   — `Paginator.exec` (the parts not talking to
  the database: sort application and result post-processing).
* `src/filterables/__init__.py` — `Filterable.path`, `Filterable.has`,
  `Filterable.drop`.

Python exceptions are modelled with `Except PyErr`; Python's `bool`/`int`
subtyping is modelled by explicit `isinstance` predicates.
-/

/-- Python exceptions that the embedded code can raise, tagged by class. -/
inductive PyErr where
  | valueError (msg : String)
  | attributeError (msg : String)
  | indexError (msg : String)
  | keyError (msg : String)
  deriving DecidableEq, Repr

/-- A Python `Comparable` value (`bool | float | int | str`, types.py line 33).
Floats are modelled as rationals (no float arithmetic is ever performed on
them by the embedded code; they are only dispatched on and compared). -/
inductive PyVal where
  | vb (b : Bool)
  | vi (i : Int)
  | vf (q : ℚ)
  | vs (s : String)
  deriving DecidableEq, Repr

/-- `isinstance(v, bool)`. -/
def pyIsBool : PyVal → Bool
  | .vb _ => true
  | _ => false

/-- `isinstance(v, float)`. -/
def pyIsFloat : PyVal → Bool
  | .vf _ => true
  | _ => false

/-- `isinstance(v, int)`.  In Python `bool` is a subclass of `int`, so a
boolean value satisfies this check as well. -/
def pyIsInt : PyVal → Bool
  | .vi _ => true
  | .vb _ => true
  | _ => false

/-- `isinstance(v, str)`. -/
def pyIsStr : PyVal → Bool
  | .vs _ => true
  | _ => false

/-- The exact runtime class of a value, as `type(value)` returns it
(`type(True)` is `bool`, not `int`). -/
inductive PyType where
  | boolT | floatT | intT | strT
  deriving DecidableEq, Repr

/-- `type(value)`. -/
def pyType : PyVal → PyType
  | .vb _ => .boolT
  | .vf _ => .floatT
  | .vi _ => .intT
  | .vs _ => .strT

/-- SQLAlchemy column type tags used by the registry (types.py lines 5–43).
`NestableType` is the JSON `TypeDecorator` from fields.py; `NestedFilterable`
is the parallel decorator defined in `__init__.py`. -/
inductive ColType where
  | Boolean
  | Date | DateTime | Interval | Time | TIMESTAMP
  | DECIMAL | Double | Float | Numeric | REAL
  | BigInteger | Integer | SmallInteger
  | AutoString | CHAR | CLOB | String | Text | VARCHAR
  | JSON | JSONB | NestableType | NestedFilterable
  deriving DecidableEq, Repr

open ColType in
/-- `AnyBool` (types.py line 36). -/
def AnyBool : List ColType := [Boolean]

open ColType in
/-- `AnyDate` (types.py line 37). -/
def AnyDate : List ColType := [Date, DateTime, Interval, Time, TIMESTAMP]

open ColType in
/-- `AnyFloat` (types.py line 38). -/
def AnyFloat : List ColType := [DECIMAL, Double, Float, Numeric, REAL]

open ColType in
/-- `AnyInteger` (types.py line 39). -/
def AnyInteger : List ColType := [BigInteger, Integer, SmallInteger]

open ColType in
/-- `AnyJson` (types.py line 40). -/
def AnyJson : List ColType := [JSON, JSONB, NestableType]

open ColType in
/-- `AnyString = AnyDate | {AutoString, CHAR, CLOB, String, Text, VARCHAR}`
(types.py line 42). -/
def AnyString : List ColType :=
  AnyDate ++ [AutoString, CHAR, CLOB, String, Text, VARCHAR]

/-- `get_column_type_for_value` (types.py lines 46–76): the `isinstance`
if-chain, testing `bool` before `float` before `int` before `str`.  The
argument is always a `Comparable`, so the final `raise` branch of the source
is unreachable here; faithfully to the chain, a string falls through to the
`str` case. -/
def get_column_type_for_value (value : PyVal) : List ColType :=
  if pyIsBool value then AnyBool
  else if pyIsFloat value then AnyFloat
  else if pyIsInt value then AnyInteger
  else AnyString

/-- The per-dialect `_json_types` inner tables (types.py lines 79–119), keyed
by exact runtime type.  A singleton string in the source becomes a singleton
list here, matching the `[values]` wrapping done by the lookup. -/
def jsonTypesTable (dialect : String) (t : PyType) : Option (List String) :=
  match dialect, t with
  | "sqlite", .boolT => some ["true", "false"]
  | "sqlite", .floatT => some ["real"]
  | "sqlite", .intT => some ["integer"]
  | "sqlite", .strT => some ["text"]
  | "mariadb", .boolT => some ["BOOLEAN"]
  | "mariadb", .floatT => some ["DOUBLE"]
  | "mariadb", .intT => some ["INTEGER"]
  | "mariadb", .strT => some ["STRING"]
  | "mysql", .boolT => some ["BOOLEAN"]
  | "mysql", .floatT => some ["DOUBLE"]
  | "mysql", .intT => some ["INTEGER"]
  | "mysql", .strT => some ["STRING"]
  | "postgresql", .boolT => some ["boolean"]
  | "postgresql", .floatT => some ["number"]
  | "postgresql", .intT => some ["number"]
  | "postgresql", .strT => some ["string"]
  | "mssql", .boolT => some ["boolean"]
  | "mssql", .floatT => some ["number"]
  | "mssql", .intT => some ["number"]
  | "mssql", .strT => some ["string"]
  | "oracle", .boolT => some ["boolean"]
  | "oracle", .floatT => some ["number"]
  | "oracle", .intT => some ["number"]
  | "oracle", .strT => some ["string"]
  | _, _ => none

/-- `_json_types.get(dialect)` where `dialect` may be an arbitrary Python
value (the caller in filters.py passes a comparable here): the dict is keyed
by the six dialect-name strings, and `.get` on any other value returns
`None` without raising. -/
def jsonTypesGet (dialect : PyVal) : Option (PyType → Option (List String)) :=
  match dialect with
  | .vs "sqlite" => some (jsonTypesTable "sqlite")
  | .vs "mariadb" => some (jsonTypesTable "mariadb")
  | .vs "mysql" => some (jsonTypesTable "mysql")
  | .vs "postgresql" => some (jsonTypesTable "postgresql")
  | .vs "mssql" => some (jsonTypesTable "mssql")
  | .vs "oracle" => some (jsonTypesTable "oracle")
  | _ => none

/-- `get_json_type_for_value(dialect, value)` (types.py lines 122–145).
NOTE the parameter order: `dialect` first, `value` second — this is the
signature as written in the source.  Both parameters are modelled as
arbitrary Python values because the call site in filters.py passes them
swapped. -/
def get_json_type_for_value (dialect : PyVal) (value : PyVal) :
    Except PyErr (List String) :=
  match jsonTypesGet dialect with
  | some types =>
    match types (pyType value) with
    | some values => .ok values
    | none => .error (.valueError "Unrecognised value type")
  | none => .error (.valueError "Unrecognised value type")

/-- The six dialect identifiers the registry supports. -/
def supportedDialects : List String :=
  ["sqlite", "mariadb", "mysql", "postgresql", "mssql", "oracle"]

/-- `s.split(sep)` on characters, with Python's semantics for a single-char
separator (`"".split(".") == [""]`). -/
def splitChar (sep : Char) : List Char → List (List Char)
  | [] => [[]]
  | c :: cs =>
    let r := splitChar sep cs
    if c = sep then [] :: r
    else
      match r with
      | [] => [[c]]
      | g :: gs => (c :: g) :: gs

/-- Python's `s.split(sep)` for a one-character separator. -/
def pySplitAll (s : String) (sep : Char) : List String :=
  (splitChar sep s.toList).map (fun l => String.mk l)

/-- `s.split(sep, 1)` on characters: the part before the first separator
and, when a separator occurs, the remainder. -/
def split1Chars (sep : Char) : List Char → List Char × Option (List Char)
  | [] => ([], Option.none)
  | c :: cs =>
    if c = sep then ([], some cs)
    else
      let (h, r) := split1Chars sep cs
      (c :: h, r)

/-- Python's `s.split(sep, 1)` for a one-character separator. -/
def pySplit1 (s : String) (sep : Char) : String × Option String :=
  let (h, r) := split1Chars sep s.toList
  (String.mk h, r.map (fun l => String.mk l))

/-- Python's `s.lower()` (ASCII folding). -/
def pyLower (s : String) : String := String.mk (s.toList.map Char.toLower)

/-! ## SQL expression AST

The SQLAlchemy expressions built by filters.py are modelled as a small AST.
Constructor names follow the constructing call in the source. -/

/-- SQL expressions as SQLAlchemy builds them in filters.py. -/
inductive Sql where
  | col (name : String)
  /-- `literal(x)` and comparables coerced into expressions. -/
  | litv (v : PyVal)
  /-- `text("FALSE")` and other raw text fragments. -/
  | rawText (s : String)
  /-- a non-clause Python object coerced by SQLAlchemy into a bound
  parameter (e.g. a bound method passed where a column was expected). -/
  | objParam (name : String)
  | isNull (e : Sql)
  | isNotNull (e : Sql)
  | not (e : Sql)
  | and (a b : Sql)
  | eq (a b : Sql)
  | ne (a b : Sql)
  | lt (a b : Sql)
  | gt (a b : Sql)
  | like (a b : Sql)
  | notLike (a b : Sql)
  | inList (a : Sql) (xs : List Sql)
  | notInList (a : Sql) (xs : List Sql)
  /-- `case((g, t), else_=e)`. -/
  | caseWhen (g t e : Sql)
  /-- `func.json_extract(col, path)` (SQLite/MySQL/MariaDB). -/
  | jsonExtract (base : Sql) (path : String)
  /-- `func.json_type(col, path)` (SQLite, two-argument form). -/
  | jsonTypePath (base : Sql) (path : String)
  /-- `func.JSON_TYPE(value)` (MySQL/MariaDB, one-argument form). -/
  | jsonType1 (e : Sql)
  /-- `func.jsonb_typeof(value)` (PostgreSQL). -/
  | jsonbTypeof (e : Sql)
  /-- `func.jsonb_extract_path(col, *segs)` (PostgreSQL). -/
  | jsonbExtractPath (base : Sql) (segs : List String)
  /-- `func.JSON_VALUE(col, path)` (MSSQL/Oracle). -/
  | jsonValueFn (base : Sql) (path : String)
  /-- `func.json_unquote(value)` (MySQL/MariaDB). -/
  | jsonUnquote (e : Sql)
  /-- `func.cast(value, T)`. -/
  | castTo (e : Sql) (t : ColType)
  /-- `func.trim(e, '"')`. -/
  | trimQ (e : Sql)
  /-- `column[key]`: SQLAlchemy's JSON index operator (used by
  `Filterable.path` for dotted paths). -/
  | jsonIndex (base : Sql) (key : String)

/-- SQLAlchemy's `~` operator on clause elements: operators that declare a
negation partner are replaced by it (`IS NULL` ↔ `IS NOT NULL`, `=` ↔ `!=`,
`IN` ↔ `NOT IN`, `LIKE` ↔ `NOT LIKE`); everything else is wrapped in
`NOT (...)`. -/
def pyNeg : Sql → Sql
  | .isNull e => .isNotNull e
  | .isNotNull e => .isNull e
  | .eq a b => .ne a b
  | .ne a b => .eq a b
  | .inList a xs => .notInList a xs
  | .notInList a xs => .inList a xs
  | .like a b => .notLike a b
  | .notLike a b => .like a b
  | e => .not e

/-! ## Columns, model attributes -/

/-- A root column reference: its SQL name and its declared SQLAlchemy type
(accessed as `column.type` in the source). -/
structure Column where
  name : String
  type : ColType
  deriving DecidableEq, Repr

/-- What `getattr(model_class, name)` can yield: an instrumented column for
a model field, or some other class attribute (a method such as
`Filterable.has`/`path`/`drop`). -/
inductive PyAttr where
  | column (c : Column)
  | method (name : String)
  deriving DecidableEq, Repr

/-- The clause element a `PyAttr` contributes when SQLAlchemy coerces it into
an expression position: a column reference, or (for a non-clause object such
as a bound method) a bound parameter. -/
def attrSql : PyAttr → Sql
  | .column c => .col c.name
  | .method n => .objParam n

/-- `column.type`: succeeds on a column; raises `AttributeError` on any
other object (a bound method has no `type` attribute). -/
def attrType : PyAttr → Except PyErr ColType
  | .column c => .ok c.type
  | .method n =>
    .error (.attributeError ("'method' object '" ++ n ++ "' has no attribute 'type'"))

/-! ## filters.py helper functions -/

/-- The string form `'$."a"."b"'` built by `get_child_ref` for non-PostgreSQL
dialects (filters.py line 463). -/
def childRefStr (children : List String) : String :=
  "$.\"" ++ String.intercalate "\".\"" children ++ "\""

/-- `get_child_ref` (filters.py lines 439–463): the child list itself on
PostgreSQL, the quoted JSON-path string otherwise. -/
inductive ChildRef where
  | segs (l : List String)
  | path (s : String)
  deriving DecidableEq, Repr

/-- `get_child_ref(column, children, dialect)`. -/
def get_child_ref (children : List String) (dialect : String) : ChildRef :=
  if dialect = "postgresql" then .segs children else .path (childRefStr children)

/-- `get_value_ref` (filters.py lines 466–508).  On PostgreSQL the source
tests `isinstance(column, JSON)` — the column *element*, not `column.type` —
which is false for every column element, so the `jsonb_extract_path` branch
is always taken. -/
def get_value_ref (column : PyAttr) (children : List String) (dialect : String) : Sql :=
  if children = [] then attrSql column
  else if dialect = "postgresql" then .jsonbExtractPath (attrSql column) children
  else if dialect = "mssql" ∨ dialect = "oracle" then
    .jsonValueFn (attrSql column) (childRefStr children)
  else .jsonExtract (attrSql column) (childRefStr children)

/-- `get_value_types` (filters.py lines 511–577).  For a nested path this
builds the dialect's JSON-type expression, unquotes string values on
MySQL/MariaDB, and looks up the guard tokens via
`get_json_type_for_value(comparable, dialect)` — with the comparable passed
in the `dialect` position and the dialect string in the `value` position,
exactly as the call on line 574 is written. -/
def get_value_types (column : PyAttr) (children : List String) (dialect : String)
    (comparable : PyVal) : Except PyErr (Sql × Option Sql) := do
  let value := get_value_ref column children dialect
  if children = [] then
    return (value, none)
  else
    let typed : Sql :=
      if dialect = "sqlite" then
        .jsonTypePath (attrSql column) (childRefStr children)
      else if dialect = "postgresql" then
        -- `isinstance(column, JSON)` is false for a column element, so the
        -- `jsonb_typeof` variant is always chosen.
        .jsonbTypeof value
      else
        .jsonType1 value
    let value :=
      if dialect ≠ "sqlite" ∧ dialect ≠ "postgresql" ∧ pyIsStr comparable then
        .jsonUnquote value
      else value
    let tokens ← get_json_type_for_value comparable (.vs dialect)
    return (value, some (.inList typed (tokens.map (fun t => .litv (.vs t)))))

/-- `is_column_type` (filters.py lines 580–605): Python evaluates
`isinstance(column.type, …)` before the `or`, so the `type` attribute is
accessed even when `children` is non-empty. -/
def is_column_type (column : PyAttr) (children : List String) (comparable : PyVal) :
    Except PyErr Bool := do
  let t ← attrType column
  return (t ∈ get_column_type_for_value comparable || children.length > 0)

/-- `create_caster` (filters.py lines 352–410): identity except on
PostgreSQL, where the comparable's runtime type picks the cast (`bool`
before `float` before `int` before `str`; the JSON branch is unreachable for
a comparable). -/
def create_caster (_column : PyAttr) (_children : List String) (dialect : String)
    (comparable : PyVal) : Sql → Sql :=
  if dialect ≠ "postgresql" then id
  else if pyIsBool comparable then fun v => .castTo v .Boolean
  else if pyIsFloat comparable then fun v => .castTo v .Float
  else if pyIsInt comparable then fun v => .castTo v .Integer
  else fun v => .trimQ (.castTo v .Text)

/-- `create_guard` (filters.py lines 413–436). -/
def create_guard (typing : Option Sql) (condition : Sql) : Sql :=
  match typing with
  | some t => .caseWhen t condition (.rawText "FALSE")
  | none => condition

/-- `create_chain` (filters.py lines 279–349).  `condition` receives the
(pre-cast) value expression and the casting function, as in the source. -/
def create_chain (column : PyAttr) (children : List String) (dialect : String)
    (comparable : PyVal) (condition : Sql → (Sql → Sql) → Sql) :
    Except PyErr Sql := do
  -- short circuit everything if we're not a valid type
  if !(← is_column_type column children comparable) then
    return .litv (.vb false)
  -- generate the value and typing required to access the value
  let (value, typing) ← get_value_types column children dialect comparable
  -- generate the casting function and condition for the guard
  let casting := create_caster column children dialect comparable
  let updated := condition (casting value) casting
  return create_guard typing updated

/-! ## Filter implementations (filters.py lines 50–218) -/

/-- `FilterBetween.create` (filters.py lines 50–68): kind inference uses
`self.lower`. -/
def FilterBetween_create (lower upper : PyVal) (column : PyAttr)
    (children : List String) (dialect : String) : Except PyErr Sql :=
  create_chain column children dialect lower
    (fun value cast => .and (.gt value (cast (.litv lower))) (.lt value (cast (.litv upper))))

/-- `FilterEquals.create` (filters.py lines 71–82). -/
def FilterEquals_create (value : PyVal) (column : PyAttr)
    (children : List String) (dialect : String) : Except PyErr Sql :=
  create_chain column children dialect value
    (fun v cast => .eq v (cast (.litv value)))

/-- `FilterGreaterThan.create` (filters.py lines 85–96). -/
def FilterGreaterThan_create (value : PyVal) (column : PyAttr)
    (children : List String) (dialect : String) : Except PyErr Sql :=
  create_chain column children dialect value
    (fun v cast => .gt v (cast (.litv value)))

/-- `FilterLessThan.create` (filters.py lines 165–176). -/
def FilterLessThan_create (value : PyVal) (column : PyAttr)
    (children : List String) (dialect : String) : Except PyErr Sql :=
  create_chain column children dialect value
    (fun v cast => .lt v (cast (.litv value)))

/-- `FilterHas.create` (filters.py lines 99–128).  `value.is_(None)` is an
attribute access on the object returned by `get_value_ref`; when there are
no children that object is the resolved model attribute itself, so a bound
method (which has no `is_`) raises `AttributeError` here.  In every dialect
branch `match` is built exactly as in the source — for SQLite, PostgreSQL
and MySQL/MariaDB it is itself a *boolean* comparison expression, and the
final predicate compares the value against it with `!=`; for the remaining
dialects `match` keeps its initial Python string value `"null"`. -/
def FilterHas_create (b : Bool) (column : PyAttr) (children : List String)
    (dialect : String) : Except PyErr Sql := do
  let _path := get_child_ref children dialect
  let value := get_value_ref column children dialect
  if children = [] then
    if let .method n := column then
      throw (.attributeError ("'method' object '" ++ n ++ "' has no attribute 'is_'"))
  let check := pyNeg (.isNull value)
  let check :=
    if children ≠ [] then
      let mtch : Sql :=
        if dialect = "sqlite" then
          .eq (.jsonTypePath (attrSql column) (childRefStr children)) (.litv (.vs "null"))
        else if dialect = "postgresql" then
          .eq (.jsonbTypeof value) (.litv (.vs "null"))
        else if dialect = "mariadb" ∨ dialect = "mysql" then
          .eq (.jsonType1 value) (.litv (.vs "NULL"))
        else
          .litv (.vs "null")
      Sql.and check (.ne value mtch)
    else check
  return if b then check else pyNeg check

/-- `FilterIn.create` (filters.py lines 131–148): `self.value[0]` is
evaluated first for kind inference, so an empty list raises `IndexError`
before anything is compiled.  Inside the condition the comprehension
variable shadows the lambda's `value` only within the list, so the receiver
of `.in_` is the column value and each element is cast. -/
def FilterIn_create (value : List PyVal) (column : PyAttr)
    (children : List String) (dialect : String) : Except PyErr Sql := do
  match value with
  | [] => throw (.indexError "list index out of range")
  | v0 :: _ =>
    create_chain column children dialect v0
      (fun v cast => .inList v (value.map (fun x => cast (.litv x))))

/-- `FilterLike.create` (filters.py lines 151–162): builds
`value.like(cast(pattern))` — SQLAlchemy's `like`, not `ilike`. -/
def FilterLike_create (value : String) (column : PyAttr)
    (children : List String) (dialect : String) : Except PyErr Sql :=
  create_chain column children dialect (.vs value)
    (fun v cast => .like v (cast (.litv (.vs value))))

/-- `FilterNotEquals.create` (filters.py lines 179–190):
`~FilterEquals(...).create(...)`. -/
def FilterNotEquals_create (value : PyVal) (column : PyAttr)
    (children : List String) (dialect : String) : Except PyErr Sql :=
  (FilterEquals_create value column children dialect).map pyNeg

/-- `FilterNotIn.create` (filters.py lines 193–204):
`~FilterIn(...).create(...)`. -/
def FilterNotIn_create (value : List PyVal) (column : PyAttr)
    (children : List String) (dialect : String) : Except PyErr Sql :=
  (FilterIn_create value column children dialect).map pyNeg

/-- `FilterUnlike.create` (filters.py lines 207–218):
`~FilterLike(...).create(...)`. -/
def FilterUnlike_create (value : String) (column : PyAttr)
    (children : List String) (dialect : String) : Except PyErr Sql :=
  (FilterLike_create value column children dialect).map pyNeg

/-- A parsed filter leaf: one constructor per `Filter` subclass. -/
inductive FilterLeaf where
  | betweenF (lower upper : PyVal)
  | eqF (value : PyVal)
  | gtF (value : PyVal)
  | hasF (value : Bool)
  | inF (value : List PyVal)
  | likeF (value : String)
  | ltF (value : PyVal)
  | neF (value : PyVal)
  | ninF (value : List PyVal)
  | unlikeF (value : String)

/-- Dispatch `filter.create(column, children, dialect)` over the leaf's
operator. -/
def FilterLeaf.create : FilterLeaf → PyAttr → List String → String → Except PyErr Sql
  | .betweenF lo hi, c, ch, d => FilterBetween_create lo hi c ch d
  | .eqF v, c, ch, d => FilterEquals_create v c ch d
  | .gtF v, c, ch, d => FilterGreaterThan_create v c ch d
  | .hasF b, c, ch, d => FilterHas_create b c ch d
  | .inF vs, c, ch, d => FilterIn_create vs c ch d
  | .likeF s, c, ch, d => FilterLike_create s c ch d
  | .ltF v, c, ch, d => FilterLessThan_create v c ch d
  | .neF v, c, ch, d => FilterNotEquals_create v c ch d
  | .ninF vs, c, ch, d => FilterNotIn_create vs c ch d
  | .unlikeF s, c, ch, d => FilterUnlike_create s c ch d

/-! ## The model and `Filters.bind` -/

/-- A `Filterable` model class as the binder sees it: its fields (columns)
and the names of its other class attributes (the methods inherited from
`Filterable`, such as `has`, `path`, `drop`). -/
structure PyModel where
  fields : List (String × ColType)
  attrs : List String

/-- `getattr(model_class, name)`: a field resolves to its instrumented
column, any other existing class attribute resolves to that attribute (a
bound method), and a missing name raises `AttributeError`. -/
def modelGetattr (m : PyModel) (name : String) : Except PyErr PyAttr :=
  match m.fields.find? (fun p => p.1 = name) with
  | some (n, t) => .ok (.column ⟨n, t⟩)
  | none =>
    if name ∈ m.attrs then .ok (.method name)
    else .error (.attributeError ("type object has no attribute '" ++ name ++ "'"))

/-- The sort direction enum (sorters.py lines 11–17). -/
inductive Direction where
  | ascending
  | descending
  deriving DecidableEq, Repr

/-- A `SELECT` statement, reduced to the parts the library manipulates:
accumulated `WHERE` clauses, `ORDER BY` entries, `LIMIT` and `OFFSET`.
(`Filters.bind` also attaches the filter document to the statement as the
`_filterables` annotation; that metadata does not alter the query and is
not modelled.) -/
structure Query where
  wheres : List Sql := []
  orderBys : List (Sql × Direction) := []
  limit : Option Int := none
  offset : Option Int := none

/-- `Filters.bind` (filters.py lines 230–276): for each document entry in
order, split the path on `"."`, resolve the head via `model.path` —
`AttributeError` from the resolution is caught and the entry skipped — then
compile the leaf (errors here are *outside* the `try` and propagate) and
`AND` the clause onto the query. -/
def Filters_bind (m : PyModel) (dialect : String) (query : Query) :
    List (String × FilterLeaf) → Except PyErr Query
  | [] => .ok query
  | (key, f) :: rest =>
    match pySplitAll key '.' with
    | [] => Filters_bind m dialect query rest  -- unreachable: str.split is never empty
    | head :: tail =>
      match modelGetattr m head with
      | .error _ => Filters_bind m dialect query rest
      | .ok column =>
        match f.create column tail dialect with
        | .error e => .error e
        | .ok bound =>
          Filters_bind m dialect { query with wheres := query.wheres ++ [bound] } rest

/-! ## `Filterable.path` / `Filterable.has` (__init__.py) and `SimpleSorter`
(sorters.py) -/

/-- What `Filterable.path` returns: a root class attribute, or a JSON index
expression `field[rest]` for a dotted path (__init__.py line 56). -/
inductive PathRes where
  | attr (a : PyAttr)
  | indexed (a : PyAttr) (key : String)
  deriving DecidableEq, Repr

/-- `Filterable.path` (__init__.py lines 40–56): split on the first `"."`,
`getattr` the head from the class, and index with the remainder when there
is one. -/
def Filterable_path (m : PyModel) (path : String) : Except PyErr PathRes := do
  let (head, rest) := pySplit1 path '.'
  let field ← modelGetattr m head
  match rest with
  | some sub => return .indexed field sub
  | Option.none => return .attr field

/-- `field.type` on a `Filterable.path` result: a column reports its
declared type, a JSON index expression reports the JSON expression type,
and a bound method has no `type` attribute. -/
def pathResType : PathRes → Except PyErr ColType
  | .attr a => attrType a
  | .indexed _ _ => .ok .JSON

/-- The clause element for a `Filterable.path` result. -/
def pathResSql : PathRes → Sql
  | .attr a => attrSql a
  | .indexed a key => .jsonIndex (attrSql a) key

/-- `Filterable.has` (__init__.py lines 23–38) applied to an already
resolved field: `field != text("'null'")` when the field's type is the
`NestedFilterable` decorator, else `field.isnot(None)`.  (Columns created
through `filterables.fields.Nestable` carry the distinct `NestableType`
decorator, which this `isinstance` test does not match.) -/
def Filterable_has (field : PathRes) : Except PyErr Sql := do
  let t ← pathResType field
  if t = .NestedFilterable then
    return .ne (pathResSql field) (.rawText "'null'")
  else
    return .isNotNull (pathResSql field)

/-- `Direction(value)` — the enum constructor: raises `ValueError` unless
the value is `"asc"` or `"desc"`. -/
def Direction_parse (s : String) : Except PyErr Direction :=
  if s = "asc" then .ok .ascending
  else if s = "desc" then .ok .descending
  else .error (.valueError ("'" ++ s ++ "' is not a valid Direction"))

/-- `SimpleSorter.split` (sorters.py lines 98–119): split the token on the
first `":"`, parse the direction (defaulting to `"asc"`, lower-cased)
*before* resolving the field via `model.path`. -/
def SimpleSorter_split (m : PyModel) (value : String) :
    Except PyErr (PathRes × Direction) := do
  let (location, rest) := pySplit1 value ':'
  let direction ← Direction_parse (pyLower (rest.getD "asc"))
  let field ← Filterable_path m location
  return (field, direction)

/-- `SimpleSorter.sort` (sorters.py lines 78–96): `AttributeError` from
`split` (i.e. from path resolution) yields `None` — the sort is skipped;
any other error propagates.  Otherwise the query gains a non-null `WHERE`
guard (`model.has`) and an `ORDER BY` in the parsed direction. -/
def SimpleSorter_sort (m : PyModel) (q : Query) (sorting : String) :
    Except PyErr (Option Query) :=
  match SimpleSorter_split m sorting with
  | .error (.attributeError _) => .ok Option.none
  | .error e => .error e
  | .ok (field, direction) => do
    let guard ← Filterable_has field
    return some
      { q with
        wheres := q.wheres ++ [guard]
        orderBys := q.orderBys ++ [(pathResSql field, direction)] }

/-- The sorter loop of `Paginator.exec` (pages.py lines 117–127): the
`"_pk"` sentinel is replaced by the primary-key name, and each token is
offered to the sorters in priority order — only `SimpleSorter` exists, and
a `None` answer leaves the query unchanged. -/
def applySorts (m : PyModel) (pk : String) (tokens : List String) (q : Query) :
    Except PyErr Query :=
  match tokens with
  | [] => .ok q
  | t :: ts => do
    let t := if t = "_pk" then pk else t
    let q ←
      match ← SimpleSorter_sort m q t with
      | some sorted => pure sorted
      | Option.none => pure q
    applySorts m pk ts q

/-! ## Instances, `Filterable.drop`, and `Paginator.exec` (pages.py) -/

/-- A Python runtime value held by a deserialized row: `None`, a primitive,
a plain dict, or a pydantic model instance (`jsonable := true` iff its class
is `Jsonable`, i.e. open to arbitrary extra attributes). -/
inductive PyV where
  | none
  | prim (v : PyVal)
  | dict (kv : List (String × PyV))
  | inst (jsonable : Bool) (attrs : List (String × PyV))

/-- `hasattr(base, name)`: attribute lookup succeeds on instances holding
the attribute.  Dicts and primitives expose no data attributes (their
builtin methods are not modelled; `Filterable.drop` never consults them). -/
def pyHasattr : PyV → String → Bool
  | .inst _ attrs, name => attrs.any (fun p => p.1 = name)
  | _, _ => false

/-- `getattr(base, name)` for an attribute `pyHasattr` reports present. -/
def pyGetattrD (base : PyV) (name : String) : PyV :=
  match base with
  | .inst _ attrs =>
    match attrs.find? (fun p => p.1 = name) with
    | some (_, v) => v
    | Option.none => .none
  | _ => .none

/-- `setattr(base, name, value)` (functional update). -/
def pySetattrF (base : PyV) (name : String) (value : PyV) : PyV :=
  match base with
  | .inst j attrs =>
    if attrs.any (fun p => p.1 = name) then
      .inst j (attrs.map (fun p => if p.1 = name then (p.1, value) else p))
    else .inst j (attrs ++ [(name, value)])
  | other => other

/-- `name in base`: key membership for dicts.  Iterating a pydantic model
yields `(key, value)` pairs, so `name in model` is false for a string; the
substring reading of `in` on primitive strings is not exercised by `drop`
on model data and is modelled as false. -/
def pyContains : PyV → String → Bool
  | .dict kv, name => kv.any (fun p => p.1 = name)
  | _, _ => false

/-- `base[name]` for a dict. -/
def pyDictGet (base : PyV) (name : String) : PyV :=
  match base with
  | .dict kv =>
    match kv.find? (fun p => p.1 = name) with
    | some (_, v) => v
    | Option.none => .none
  | _ => .none

/-- `base[name] = value` for a dict (functional update). -/
def pyDictSet (base : PyV) (name : String) (value : PyV) : PyV :=
  match base with
  | .dict kv => .dict (kv.map (fun p => if p.1 = name then (p.1, value) else p))
  | other => other

/-- The deletion step at the end of `Filterable.drop`'s nested branch
(__init__.py lines 97–103): `del base[last]` when the walked base is a
dict (raising `KeyError` on a missing key), `delattr(base, last)` when it
is a `Jsonable` (raising `AttributeError` on a missing attribute), and no
effect on anything else (a strict nested model is neither). -/
def dropDelete (base : PyV) (last : String) : Except PyErr PyV :=
  match base with
  | .dict kv =>
    if kv.any (fun p => p.1 = last) then .ok (.dict (kv.filter (fun p => p.1 ≠ last)))
    else .error (.keyError last)
  | .inst true attrs =>
    if attrs.any (fun p => p.1 = last) then
      .ok (.inst true (attrs.filter (fun p => p.1 ≠ last)))
    else .error (.attributeError last)
  | other => .ok other

/-- The walk of `Filterable.drop`'s nested branch (__init__.py lines
87–95), in functional form: descend through attributes (or dict keys when
no attribute matches), leaving `base` unchanged when neither resolves, and
apply the deletion at the end of the walk, writing updates back along the
descent. -/
def dropWalk (base : PyV) (segs : List String) (last : String) : Except PyErr PyV :=
  match segs with
  | [] => dropDelete base last
  | s :: ss =>
    if pyHasattr base s then do
      let child ← dropWalk (pyGetattrD base s) ss last
      return pySetattrF base s child
    else if pyContains base s then do
      let child ← dropWalk (pyDictGet base s) ss last
      return pyDictSet base s child
    else
      dropWalk base ss last

/-- A non-empty list split into its leading part and last element. -/
def splitLast : List String → Option (List String × String)
  | [] => Option.none
  | [x] => some ([], x)
  | x :: xs =>
    match splitLast xs with
    | some (init, last) => some (x :: init, last)
    | Option.none => Option.none

/-- One path of `Filterable.drop` (__init__.py lines 73–103): skip when the
first segment is not an attribute of the instance; set a root field to
`None` for a one-segment path; otherwise walk `path[:-1]` and delete the
final segment. -/
def dropOne (self : PyV) (path : List String) : Except PyErr PyV :=
  match path with
  | [] => .ok self
  | p0 :: rest =>
    if !(pyHasattr self p0) then .ok self
    else if rest = [] then .ok (pySetattrF self p0 .none)
    else
      match splitLast (p0 :: rest) with
      | some (init, last) => dropWalk self init last
      | Option.none => .ok self

/-- `Filterable.drop` (__init__.py lines 58–105): fold `dropOne` over the
dot-split paths. -/
def Filterable_drop (self : PyV) (paths : List String) : Except PyErr PyV :=
  paths.foldlM (fun s p => dropOne s (pySplitAll p '.')) self

/-- The class attributes `Filterable` defines (methods available on every
model instance beside its fields). -/
def filterableMethods : List String := ["has", "path", "drop", "from_query", "unpack"]

/-- Calling `instance.<name>(paths)` on a `Filterable` instance: `drop` is
the only `Filterable` method taking a list of paths; any name that is
neither an instance attribute nor a class attribute raises
`AttributeError`. -/
def pyCallPathsMethod (self : PyV) (name : String) (paths : List String) :
    Except PyErr PyV :=
  if name = "drop" then Filterable_drop self paths
  else if pyHasattr self name || name ∈ filterableMethods then
    .error (.attributeError ("'" ++ name ++ "' is not callable with a list of paths"))
  else
    .error (.attributeError ("'Person' object has no attribute '" ++ name ++ "'"))

/-- `Paginator` parameters (pages.py lines 43–85). -/
structure Paginator where
  limit : Int := 25
  offset : Int := 0
  sorting : List String := ["_pk"]
  excludes : List String := []

/-- The page produced by `Paginator.exec`, reduced to the parts computed
here (the `params`/`filters` echoes are omitted). -/
structure Pagination where
  count : Int
  results : List PyV

/-- `Paginator.exec` (pages.py lines 87–143), with the database boundary
made explicit: the rows the row-statement would fetch and the count the
count-statement would return are inputs.  Sorting is applied through the
sorter loop; with `limit = 0` the row query is skipped; each returned row
is post-processed with `model.remove(self.excludes)` — the method name the
source asks for on line 142. -/
def Paginator_exec (p : Paginator) (m : PyModel) (pk : String) (q : Query)
    (fetchedRows : List PyV) (fetchedCount : Int) : Except PyErr Pagination := do
  let q1 ← applySorts m pk p.sorting q
  let _modelExec := { q1 with limit := some p.limit, offset := some p.offset }
  let rows := if p.limit > 0 then fetchedRows else []
  let _metaExec := { q1 with limit := some 1, offset := some 0, orderBys := [] }
  let results ← rows.mapM (fun row => pyCallPathsMethod row "remove" p.excludes)
  return { count := fetchedCount, results := results }

/-! ## SQL semantics

A three-valued evaluator for the emitted expressions, used to compare the
compiled SQL with the behaviour the specification claims.  Boolean results
are represented as `1`/`0` (as SQLite stores them), `NULL` as `.vnull`.
JSON functions carry SQLite's semantics (`json_extract`, two-argument
`json_type`); the PostgreSQL-only constructs that the proofs evaluate
(`CAST(e AS TEXT)`, `TRIM(e, '"')`, `LIKE`) carry PostgreSQL's.  Dialect
functions never evaluated by any theorem (`jsonb_typeof`, `JSON_VALUE`,
`json_unquote`, …) evaluate to `NULL`. -/

/-- A JSON document stored in a JSON column. -/
inductive JsonV where
  | jnull
  | jbool (b : Bool)
  | jint (i : Int)
  | jstr (s : String)
  | jobj (kv : List (String × JsonV))

/-- SQL runtime values. -/
inductive Val where
  | vnull
  | vint (i : Int)
  | vstr (s : String)
  | vrat (q : ℚ)
  | vjson (j : JsonV)

/-- A database row: the value each column holds. -/
def Row := String → Val

/-- Is the value SQL `NULL`? -/
def isVNull : Val → Bool
  | .vnull => true
  | _ => false

/-- Booleans as SQL(ite) integers. -/
def tvOfBool (b : Bool) : Val := .vint (if b then 1 else 0)

/-- SQL truth of a value: definite for integers, undefined (`NULL`) for
everything else the compiled predicates produce. -/
def truth : Val → Option Bool
  | .vint i => some (i ≠ 0)
  | _ => Option.none

/-- Three-valued `NOT`. -/
def tvNot : Val → Val
  | .vint i => tvOfBool (i = 0)
  | _ => .vnull

/-- Three-valued `AND`. -/
def tvAnd (a b : Val) : Val :=
  match truth a, truth b with
  | some false, _ => tvOfBool false
  | _, some false => tvOfBool false
  | some true, some true => tvOfBool true
  | _, _ => .vnull

/-- Equality of non-null SQL values: same storage class compares its
contents; differing storage classes are unequal. -/
def valEqB : Val → Val → Bool
  | .vint i, .vint j => i = j
  | .vstr s, .vstr t => s = t
  | .vrat p, .vrat q => p = q
  | _, _ => false

/-- Three-valued `=`. -/
def tvEq (a b : Val) : Val :=
  if isVNull a || isVNull b then .vnull else tvOfBool (valEqB a b)

/-- Ordering of non-null values: numerics compare numerically, strings
lexicographically, and (as in SQLite's storage-class ordering) any numeric
sorts before any string. -/
def valLtB : Val → Val → Bool
  | .vint i, .vint j => i < j
  | .vrat p, .vrat q => p < q
  | .vint i, .vrat q => (i : ℚ) < q
  | .vrat p, .vint j => p < (j : ℚ)
  | .vstr s, .vstr t => s < t
  | .vint _, .vstr _ => true
  | .vrat _, .vstr _ => true
  | _, _ => false

/-- Three-valued `<`. -/
def tvLt (a b : Val) : Val :=
  if isVNull a || isVNull b then .vnull else tvOfBool (valLtB a b)

/-- SQL `LIKE` pattern matching over characters (`%` and `_` wildcards);
the character comparison is a parameter (case sensitivity differs by
dialect).  `%` matches a prefix of any length, i.e. the rest of the
pattern must match some suffix of the string. -/
def likeMatch (charEq : Char → Char → Bool) : List Char → List Char → Bool
  | [], s => s.isEmpty
  | '%' :: ps, s => (s.tails).any (fun t => likeMatch charEq ps t)
  | '_' :: _, [] => false
  | '_' :: ps, _ :: cs => likeMatch charEq ps cs
  | _ :: _, [] => false
  | p :: ps, c :: cs => charEq p c && likeMatch charEq ps cs

/-- Three-valued `LIKE`: `value LIKE pattern`, case-sensitive on
PostgreSQL, case-insensitive (ASCII folding) elsewhere, `NULL` on non-text
or `NULL` operands. -/
def tvLike (caseSensitive : Bool) (value pattern : Val) : Val :=
  match value, pattern with
  | .vstr v, .vstr p =>
    let charEq : Char → Char → Bool :=
      if caseSensitive then (· = ·) else (fun a b => a.toLower = b.toLower)
    tvOfBool (likeMatch charEq p.toList v.toList)
  | _, _ => .vnull

/-- SQL `IN`: true on a match, `NULL` when no match but some element (or
the needle) is `NULL`, false otherwise. -/
def tvIn (a : Val) (xs : List Val) : Val :=
  if isVNull a then .vnull
  else if xs.any (fun x => !isVNull x && valEqB a x) then tvOfBool true
  else if xs.any (fun x => isVNull x) then .vnull
  else tvOfBool false

/-- Navigate a JSON document along path segments. -/
def jnav : JsonV → List String → Option JsonV
  | j, [] => some j
  | .jobj kv, s :: ss =>
    match kv.find? (fun p => p.1 = s) with
    | some (_, v) => jnav v ss
    | Option.none => Option.none
  | _, _ :: _ => Option.none

/-- Recover the segments of a `'$."a"."b"'` JSON path string (the exact
format `childRefStr` produces): after the leading `$."`, segments are read
up to each closing quote. -/
def parseSegsChars (acc : List Char) : List Char → List String
  | '"' :: '.' :: '"' :: rest => String.mk acc :: parseSegsChars [] rest
  | ['"'] => [String.mk acc]
  | '"' :: _ => []
  | c :: rest => parseSegsChars (acc ++ [c]) rest
  | [] => []

/-- Recover the segments of a `'$."a"."b"'` JSON path string. -/
def parsePathSegs (s : String) : List String :=
  match s.toList with
  | '$' :: '.' :: '"' :: rest => parseSegsChars [] rest
  | _ => []

/-- SQLite `json_extract(col, path)` on a JSON document: SQL `NULL` for a
missing path or a JSON `null`; scalars become SQL scalars (booleans as
`1`/`0`); objects stay structured. -/
def sqliteJsonExtract (j : JsonV) (path : String) : Val :=
  match jnav j (parsePathSegs path) with
  | Option.none => .vnull
  | some .jnull => .vnull
  | some (.jbool b) => tvOfBool b
  | some (.jint i) => .vint i
  | some (.jstr s) => .vstr s
  | some (.jobj kv) => .vjson (.jobj kv)

/-- SQLite `json_type(col, path)`: SQL `NULL` for a missing path, the type
token otherwise. -/
def sqliteJsonType (j : JsonV) (path : String) : Val :=
  match jnav j (parsePathSegs path) with
  | Option.none => .vnull
  | some .jnull => .vstr "null"
  | some (.jbool b) => .vstr (if b then "true" else "false")
  | some (.jint _) => .vstr "integer"
  | some (.jstr _) => .vstr "text"
  | some (.jobj _) => .vstr "object"

/-- PostgreSQL `CAST(e AS T)` for the casts the proofs evaluate: casting to
`TEXT` renders scalars; every other cast (whose PostgreSQL failure modes
are not modelled) yields `NULL` on the inputs the theorems avoid. -/
def valCast (v : Val) : ColType → Val
  | .Text =>
    match v with
    | .vstr s => .vstr s
    | .vint i => .vstr (toString i)
    | other => other
  | .Integer => match v with | .vint i => .vint i | .vnull => .vnull | _ => .vnull
  | .Boolean => match v with | .vnull => .vnull | other => other
  | .Float => match v with | .vrat q => .vrat q | .vnull => .vnull | _ => .vnull
  | _ => .vnull

/-- `TRIM(e, '"')`: strip leading/trailing double quotes from a text
value. -/
def valTrimQ : Val → Val
  | .vstr s =>
    .vstr (String.mk (((s.toList.dropWhile (· = '"')).reverse.dropWhile (· = '"')).reverse))
  | other => other

mutual

/-- Evaluate a compiled expression against a row.  The `dialect` chooses
`LIKE`'s case sensitivity. -/
def evalSql (dialect : String) (row : Row) : Sql → Val
  | .col n => row n
  | .litv (.vb b) => tvOfBool b
  | .litv (.vi i) => .vint i
  | .litv (.vf q) => .vrat q
  | .litv (.vs s) => .vstr s
  | .rawText s =>
    if s = "FALSE" then tvOfBool false
    else if s = "'null'" then .vstr "null"
    else .vnull
  | .objParam _ => .vnull
  | .isNull e => tvOfBool (isVNull (evalSql dialect row e))
  | .isNotNull e => tvOfBool (!isVNull (evalSql dialect row e))
  | .not e => tvNot (evalSql dialect row e)
  | .and a b => tvAnd (evalSql dialect row a) (evalSql dialect row b)
  | .eq a b => tvEq (evalSql dialect row a) (evalSql dialect row b)
  | .ne a b => tvNot (tvEq (evalSql dialect row a) (evalSql dialect row b))
  | .lt a b => tvLt (evalSql dialect row a) (evalSql dialect row b)
  | .gt a b => tvLt (evalSql dialect row b) (evalSql dialect row a)
  | .like a b => tvLike (dialect = "postgresql") (evalSql dialect row a) (evalSql dialect row b)
  | .notLike a b =>
    tvNot (tvLike (dialect = "postgresql") (evalSql dialect row a) (evalSql dialect row b))
  | .inList a xs => tvIn (evalSql dialect row a) (evalSqlList dialect row xs)
  | .notInList a xs => tvNot (tvIn (evalSql dialect row a) (evalSqlList dialect row xs))
  | .caseWhen g t e =>
    match truth (evalSql dialect row g) with
    | some true => evalSql dialect row t
    | _ => evalSql dialect row e
  | .jsonExtract base path =>
    match evalSql dialect row base with
    | .vjson j => sqliteJsonExtract j path
    | _ => .vnull
  | .jsonTypePath base path =>
    match evalSql dialect row base with
    | .vjson j => sqliteJsonType j path
    | _ => .vnull
  | .jsonType1 _ => .vnull
  | .jsonbTypeof _ => .vnull
  | .jsonbExtractPath _ _ => .vnull
  | .jsonValueFn _ _ => .vnull
  | .jsonUnquote _ => .vnull
  | .jsonIndex _ _ => .vnull
  | .castTo e t => valCast (evalSql dialect row e) t
  | .trimQ e => valTrimQ (evalSql dialect row e)

/-- Evaluate a list of expressions. -/
def evalSqlList (dialect : String) (row : Row) : List Sql → List Val
  | [] => []
  | x :: xs => evalSql dialect row x :: evalSqlList dialect row xs

end

/-- A row satisfies a `WHERE` predicate iff the predicate evaluates to a
true value. -/
def rowSelected (dialect : String) (row : Row) (e : Sql) : Prop :=
  truth (evalSql dialect row e) = some true

/-! ## Concrete fixtures

The `Person` model of the test suite (tests/conftest.py lines 12–32):
`id: str` (primary key), `age: int`, `name: str`, and two nested documents
built with `filterables.fields.Nestable` — `loose` (validated into the open
`Jsonable`) and `strong` (validated into the strict `PersonMetadata`). -/

/-- The `Person` model: its columns and the class attributes inherited from
`Filterable`. -/
def personModel : PyModel :=
  { fields := [("id", .AutoString), ("age", .Integer), ("name", .AutoString),
               ("loose", .NestableType), ("strong", .NestableType)],
    attrs := filterableMethods }

/-- The `Person.loose` column (an open JSON document). -/
def looseCol : PyAttr := .column ⟨"loose", .NestableType⟩

/-- The `Person.age` column. -/
def ageCol : PyAttr := .column ⟨"age", .Integer⟩

/-- The `Person.name` column. -/
def nameCol : PyAttr := .column ⟨"name", .AutoString⟩

/-- A deserialized `Person` row, with the same value mirrored into the open
and the strict nested document. -/
def violette : PyV :=
  .inst false
    [("id", .prim (.vs "1")), ("age", .prim (.vi 30)),
     ("name", .prim (.vs "Violette Hermann")),
     ("loose", .inst true [("name", .prim (.vs "Violette Hermann"))]),
     ("strong", .inst false [("name", .prim (.vs "Violette Hermann"))])]

/-- `violette` after `drop(["name"])`: the root field is set to `None`. -/
def violetteNoName : PyV :=
  .inst false
    [("id", .prim (.vs "1")), ("age", .prim (.vi 30)),
     ("name", .none),
     ("loose", .inst true [("name", .prim (.vs "Violette Hermann"))]),
     ("strong", .inst false [("name", .prim (.vs "Violette Hermann"))])]

/-- `violette` after `drop(["loose.name"])`: the key is removed from the
open nested record. -/
def violetteNoLooseName : PyV :=
  .inst false
    [("id", .prim (.vs "1")), ("age", .prim (.vi 30)),
     ("name", .prim (.vs "Violette Hermann")),
     ("loose", .inst true []),
     ("strong", .inst false [("name", .prim (.vs "Violette Hermann"))])]

/-- The value reference the compiler builds for `loose.include` on SQLite. -/
def hasValueRef : Sql := .jsonExtract (.col "loose") "$.\"include\""

/-- The `match` expression `FilterHas.create` builds for `loose.include` on
SQLite: `json_type(loose, '$."include"') = 'null'` — itself a boolean
comparison. -/
def hasMatchExpr : Sql :=
  .eq (.jsonTypePath (.col "loose") "$.\"include\"") (.litv (.vs "null"))

/-- The predicate the source emits for `{"loose.include": {"$has": true}}`
on SQLite: the value is compared against the boolean `match` expression
with `!=`. -/
def hasCodePredicate : Sql := .and (.isNotNull hasValueRef) (.ne hasValueRef hasMatchExpr)

/-- The predicate the specification describes for the same filter: the
value is present *and* the JSON-null type test is false. -/
def hasSpecPredicate : Sql := .and (.isNotNull hasValueRef) (.not hasMatchExpr)

/-- A row whose `loose` document carries `include = 0`: the value is
present, and its JSON type is `integer`, not `null`. -/
def rowIncludeZero : Row :=
  fun c => if c = "loose" then .vjson (.jobj [("include", .jint 0)]) else .vnull

/-- A row whose `name` column holds `"abc"` — differing from the pattern
`"ABC"` only in letter case. -/
def rowNameLower : Row := fun c => if c = "name" then .vstr "abc" else .vnull

/-- The expression `FilterLike.create` emits for pattern `"ABC"` on the
`name` column under PostgreSQL (both sides pass through the string
caster). -/
def likeAbcPg : Sql :=
  .like (.trimQ (.castTo (.col "name") .Text)) (.trimQ (.castTo (.litv (.vs "ABC")) .Text))

/-- The clause a single document entry contributes under `Filters.bind`:
`none` when the head does not resolve (the entry is skipped) or when
compilation fails, the compiled clause otherwise. -/
def bindEntryClause (m : PyModel) (dialect : String) (kf : String × FilterLeaf) :
    Option Sql :=
  match pySplitAll kf.1 '.' with
  | [] => Option.none
  | head :: tail =>
    match modelGetattr m head with
    | .error _ => Option.none
    | .ok column => (kf.2.create column tail dialect).toOption

/-- An entry is benign for `Filters.bind`: its head fails to resolve (the
entry is skipped), or it resolves and its compilation succeeds. -/
def bindEntryOk (m : PyModel) (dialect : String) (kf : String × FilterLeaf) : Bool :=
  match pySplitAll kf.1 '.' with
  | [] => true
  | head :: tail =>
    match modelGetattr m head with
    | .error _ => true
    | .ok column => (kf.2.create column tail dialect).toOption.isSome

/-- A fixture row for semantic witnesses: every column holds `1`. -/
def rowAllOne : Row := fun _ => .vint 1

/-- A definite comparison used by semantic witnesses. -/
def eqColOne : Sql := .eq (.col "x") (.litv (.vi 1))

/-! ## Supporting lemmas -/

/-- The compatibility pre-check of `create_chain` on a root path: an
incompatible declared column type short-circuits to `literal(False)`. -/
theorem create_chain_incompat (c : Column) (dialect : String) (v : PyVal)
    (cond : Sql → (Sql → Sql) → Sql) (h : c.type ∉ get_column_type_for_value v) :
    create_chain (.column c) [] dialect v cond = .ok (.litv (.vb false)) := by
  simp [create_chain, is_column_type, attrType, bind, Except.bind, pure, Except.pure, h]

theorem tvNot_tvNot_ofBool (b : Bool) : tvNot (tvNot (tvOfBool b)) = tvOfBool b := by
  cases b <;> rfl

theorem tvNot_tvNot_tvEq (a b : Val) : tvNot (tvNot (tvEq a b)) = tvEq a b := by
  unfold tvEq
  split
  · rfl
  · exact tvNot_tvNot_ofBool _

theorem tvNot_tvNot_tvIn (a : Val) (xs : List Val) :
    tvNot (tvNot (tvIn a xs)) = tvIn a xs := by
  unfold tvIn
  split
  · rfl
  · split
    · exact tvNot_tvNot_ofBool _
    · split
      · rfl
      · exact tvNot_tvNot_ofBool _

theorem tvNot_tvNot_tvLike (cs : Bool) (a b : Val) :
    tvNot (tvNot (tvLike cs a b)) = tvLike cs a b := by
  unfold tvLike
  split
  · exact tvNot_tvNot_ofBool _
  · rfl

/-- SQLAlchemy's `~` is semantically three-valued `NOT` under the
evaluator, for every expression. -/
theorem evalSql_pyNeg (dl : String) (row : Row) (e : Sql) :
    evalSql dl row (pyNeg e) = tvNot (evalSql dl row e) := by
  cases e with
  | isNull e =>
    show tvOfBool (!isVNull (evalSql dl row e)) = tvNot (tvOfBool (isVNull (evalSql dl row e)))
    cases isVNull (evalSql dl row e) <;> rfl
  | isNotNull e =>
    show tvOfBool (isVNull (evalSql dl row e)) = tvNot (tvOfBool (!isVNull (evalSql dl row e)))
    cases isVNull (evalSql dl row e) <;> rfl
  | eq a b => rfl
  | ne a b => exact (tvNot_tvNot_tvEq _ _).symm
  | inList a xs => rfl
  | notInList a xs => exact (tvNot_tvNot_tvIn _ _).symm
  | like a b => rfl
  | notLike a b => exact (tvNot_tvNot_tvLike _ _ _).symm
  | _ => rfl

theorem truth_tvNot (v : Val) : truth (tvNot v) = (truth v).map (!·) := by
  cases v with
  | vint i =>
    by_cases h : i = 0 <;> simp [tvNot, truth, tvOfBool, h]
  | _ => rfl

/-! ## Claim theorems -/

/-- Claim C1: on every nested path the compiler is supposed to succeed and
emit the dialect's JSON-type guard; instead, `get_value_types` calls
`get_json_type_for_value(comparable, dialect)` with its two arguments
swapped against the signature `(dialect, value)`, so the token lookup keys
the dialect table with the comparable and raises
`ValueError("Unrecognised value type")` on every supported dialect and
every comparable kind (shown for an `int`, a `bool`, a `float` and a
`str` comparable, and for the full `$gt` pipeline and the binder).  The
last conjunct shows the lookup succeeds when called in the signature's
order, pinning the failure on the swapped call. -/
theorem C1_nested_guard_lookup_raises :
    (∀ d ∈ supportedDialects,
      get_value_types looseCol ["age"] d (.vi 30)
        = .error (.valueError "Unrecognised value type")) ∧
    get_value_types looseCol ["active"] "sqlite" (.vb true)
      = .error (.valueError "Unrecognised value type") ∧
    get_value_types looseCol ["latitude"] "postgresql" (.vf (3 : ℚ))
      = .error (.valueError "Unrecognised value type") ∧
    get_value_types looseCol ["name"] "mysql" (.vs "x")
      = .error (.valueError "Unrecognised value type") ∧
    FilterGreaterThan_create (.vi 30) looseCol ["age"] "sqlite"
      = .error (.valueError "Unrecognised value type") ∧
    Filters_bind personModel "sqlite" {} [("loose.age", .gtF (.vi 30))]
      = .error (.valueError "Unrecognised value type") ∧
    get_json_type_for_value (.vi 30) (.vs "sqlite")
      = .error (.valueError "Unrecognised value type") ∧
    get_json_type_for_value (.vs "sqlite") (.vi 30) = .ok ["integer"] := by
  refine ⟨?_, rfl, rfl, rfl, rfl, rfl, rfl, rfl⟩
  intro d hd
  fin_cases hd <;> rfl

/-- Claim C2: `Paginator.exec` is supposed to drop each excluded path from
every returned row and return the page; instead line 142 of pages.py calls
`model.remove(self.excludes)`, a method `Filterable` does not define (its
method is `drop`), so `exec` raises `AttributeError` whenever any row is
returned.  The remaining conjuncts evaluate `Filterable.drop` — the method
the claim describes — at the same input: a root exclusion nulls the field,
an open-nested exclusion removes the key, and invalid or non-existent
paths are ignored. -/
theorem C2_exec_calls_missing_remove :
    Paginator_exec ⟨1, 0, ["_pk"], ["name"]⟩ personModel "id" {} [violette] 1
      = .error (.attributeError "'Person' object has no attribute 'remove'") ∧
    Filterable_drop violette ["name"] = .ok violetteNoName ∧
    Filterable_drop violette ["loose.name"] = .ok violetteNoLooseName ∧
    Filterable_drop violette ["zzz"] = .ok violette ∧
    Filterable_drop violette ["zzz.name"] = .ok violette :=
  ⟨rfl, rfl, rfl, rfl, rfl⟩

/-- Claim C5: on a root path `$has` compiles to `IS NOT NULL` / `IS NULL`
as claimed; but on a nested path the emitted conjunct is
`value != (json_type(col, path) = 'null')` — the value compared against
the *boolean* type test — rather than the claimed conjunction with the
negated type test.  On a row whose `loose.include` is the present value
`0`, the emitted predicate is FALSE while the claimed predicate is TRUE. -/
theorem C5_has_value_compared_to_type_test :
    FilterHas_create true ageCol [] "sqlite" = .ok (.isNotNull (.col "age")) ∧
    FilterHas_create false ageCol [] "sqlite" = .ok (.isNull (.col "age")) ∧
    FilterHas_create true looseCol ["include"] "sqlite" = .ok hasCodePredicate ∧
    FilterHas_create false looseCol ["include"] "sqlite" = .ok (.not hasCodePredicate) ∧
    evalSql "sqlite" rowIncludeZero hasCodePredicate = .vint 0 ∧
    evalSql "sqlite" rowIncludeZero hasSpecPredicate = .vint 1 :=
  ⟨rfl, rfl, rfl, rfl, rfl, rfl⟩

/-- Claim C7 (counterexample): compiling `$in` with an empty list is *not*
a defined operation returning `V IN ()` — kind inference reads
`self.value[0]` first, which raises `IndexError` on an empty list, so no
expression (in particular no `IN ()` comparison) is ever produced. -/
theorem C7_in_empty_raises_cx :
    FilterIn_create [] ageCol [] "sqlite" = .error (.indexError "list index out of range") ∧
    (Except.error (PyErr.indexError "list index out of range") : Except PyErr Sql)
      ≠ .ok (.inList (.col "age") []) :=
  ⟨rfl, fun h => Except.noConfusion h⟩

/-- Claim C7 (amended): compiling a `$in` leaf whose list argument is empty
raises `IndexError` during compilation, for every column, child path and
dialect; no `IN ()` comparison is emitted. -/
theorem C7_in_empty_raises (c : PyAttr) (children : List String) (dialect : String) :
    FilterIn_create [] c children dialect = .error (.indexError "list index out of range") := rfl

/-- Claim C3 (counterexample): a `$ne` leaf on an incompatible root column
does not return the literal FALSE expression — it returns the *negation*
`NOT (FALSE)` of it (selecting every row, as the repository's own
`test_filter_not_equals_invalid` expects). -/
theorem C3_negated_not_literal_false_cx :
    FilterNotEquals_create (.vs "") ageCol [] "sqlite" = .ok (.not (.litv (.vb false))) ∧
    (Except.ok (Sql.not (.litv (.vb false))) : Except PyErr Sql) ≠ .ok (.litv (.vb false)) := by
  refine ⟨rfl, fun h => ?_⟩
  injection h with h2
  exact Sql.noConfusion h2

/-- Claim C3 (amended): the compatibility pre-check emits `literal(False)`
for the operators that call `create_chain` directly (`$eq`, `$gt`, `$lt`,
`$between`, `$in`, `$like`); the negated operators (`$ne`, `$nin`,
`$unlike`) return the negation `NOT (FALSE)` of that literal, and `$has`
performs no compatibility pre-check at all. -/
theorem C3_incompatible_root_precheck (c : Column) (dialect : String)
    (v lo hi : PyVal) (vs : List PyVal) (pat : String) :
    (c.type ∉ get_column_type_for_value v →
      FilterEquals_create v (.column c) [] dialect = .ok (.litv (.vb false)) ∧
      FilterGreaterThan_create v (.column c) [] dialect = .ok (.litv (.vb false)) ∧
      FilterLessThan_create v (.column c) [] dialect = .ok (.litv (.vb false)) ∧
      FilterIn_create (v :: vs) (.column c) [] dialect = .ok (.litv (.vb false)) ∧
      FilterNotEquals_create v (.column c) [] dialect = .ok (.not (.litv (.vb false))) ∧
      FilterNotIn_create (v :: vs) (.column c) [] dialect = .ok (.not (.litv (.vb false)))) ∧
    (c.type ∉ get_column_type_for_value lo →
      FilterBetween_create lo hi (.column c) [] dialect = .ok (.litv (.vb false))) ∧
    (c.type ∉ get_column_type_for_value (.vs pat) →
      FilterLike_create pat (.column c) [] dialect = .ok (.litv (.vb false)) ∧
      FilterUnlike_create pat (.column c) [] dialect = .ok (.not (.litv (.vb false)))) := by
  refine ⟨fun h => ?_, fun h => ?_, fun h => ?_⟩
  · have he := create_chain_incompat c dialect v
      (fun val cast => .eq val (cast (.litv v))) h
    have hi' := create_chain_incompat c dialect v
      (fun val cast => .inList val ((v :: vs).map (fun x => cast (.litv x)))) h
    refine ⟨he, create_chain_incompat c dialect v _ h, create_chain_incompat c dialect v _ h,
      hi', ?_, ?_⟩
    · show (FilterEquals_create v (.column c) [] dialect).map pyNeg = _
      rw [show FilterEquals_create v (.column c) [] dialect = .ok (.litv (.vb false)) from he]
      rfl
    · show (FilterIn_create (v :: vs) (.column c) [] dialect).map pyNeg = _
      rw [show FilterIn_create (v :: vs) (.column c) [] dialect
            = .ok (.litv (.vb false)) from hi']
      rfl
  · exact create_chain_incompat c dialect lo _ h
  · have hl := create_chain_incompat c dialect (.vs pat)
      (fun val cast => .like val (cast (.litv (.vs pat)))) h
    refine ⟨hl, ?_⟩
    show (FilterLike_create pat (.column c) [] dialect).map pyNeg = _
    rw [show FilterLike_create pat (.column c) [] dialect = .ok (.litv (.vb false)) from hl]
    rfl

/-- Witness for `C3_incompatible_root_precheck`: the `age` column is an
`Integer` column, incompatible with the string `""`. -/
theorem C3_incompatible_root_precheck_witness :
    (Column.mk "age" .Integer).type ∉ get_column_type_for_value (.vs "") ∧
    FilterEquals_create (.vs "") ageCol [] "sqlite" = .ok (.litv (.vb false)) ∧
    FilterNotEquals_create (.vs "") ageCol [] "sqlite" = .ok (.not (.litv (.vb false))) :=
  ⟨by decide,
   ((C3_incompatible_root_precheck ⟨"age", .Integer⟩ "sqlite" (.vs "") (.vi 0) (.vi 0) [] "x").1
      (by decide)).1,
   ((C3_incompatible_root_precheck ⟨"age", .Integer⟩ "sqlite" (.vs "") (.vi 0) (.vi 0) [] "x").1
      (by decide)).2.2.2.2.1⟩

/-- Claim C4: each negated operator compiles to exactly SQLAlchemy's `~`
of its positive counterpart at the same arguments (also when both raise),
and under the evaluator `~` complements selection on every row where the
expression is definite; on a row passing a type guard the guarded
expression reduces to the bare comparison, so the pairs select
complementary row sets there. -/
theorem C4_negated_operators (c : PyAttr) (ch : List String) (d : String)
    (v : PyVal) (xs : List PyVal) (pat : String) :
    FilterNotEquals_create v c ch d = (FilterEquals_create v c ch d).map pyNeg ∧
    FilterNotIn_create xs c ch d = (FilterIn_create xs c ch d).map pyNeg ∧
    FilterUnlike_create pat c ch d = (FilterLike_create pat c ch d).map pyNeg ∧
    (∀ (dl : String) (row : Row) (e : Sql),
      truth (evalSql dl row e) ≠ Option.none →
        (rowSelected dl row (pyNeg e) ↔ ¬ rowSelected dl row e)) ∧
    (∀ (dl : String) (row : Row) (g cmp : Sql),
      truth (evalSql dl row g) = some true →
        evalSql dl row (.caseWhen g cmp (.rawText "FALSE")) = evalSql dl row cmp) := by
  refine ⟨rfl, rfl, rfl, ?_, ?_⟩
  · intro dl row e h
    unfold rowSelected
    rw [evalSql_pyNeg, truth_tvNot]
    rcases htr : truth (evalSql dl row e) with _ | t
    · exact absurd htr h
    · cases t <;> simp [htr]
  · intro dl row g cmp h
    simp [evalSql, h]

/-- Witness for `C4_negated_operators`: on a row where `x = 1`, the
comparison `x = 1` is definite, `~` complements it, and a true guard
exposes the bare comparison. -/
theorem C4_negated_operators_witness :
    truth (evalSql "sqlite" rowAllOne eqColOne) ≠ Option.none ∧
    (rowSelected "sqlite" rowAllOne (pyNeg eqColOne) ↔
      ¬ rowSelected "sqlite" rowAllOne eqColOne) ∧
    truth (evalSql "sqlite" rowAllOne (.litv (.vb true))) = some true ∧
    evalSql "sqlite" rowAllOne (.caseWhen (.litv (.vb true)) eqColOne (.rawText "FALSE"))
      = evalSql "sqlite" rowAllOne eqColOne :=
  ⟨by decide,
   (C4_negated_operators ageCol [] "sqlite" (.vi 0) [] "").2.2.2.1 "sqlite" rowAllOne
     eqColOne (by decide),
   by decide,
   (C4_negated_operators ageCol [] "sqlite" (.vi 0) [] "").2.2.2.2 "sqlite" rowAllOne
     (.litv (.vb true)) eqColOne (by decide)⟩

/-- Claim C6 (counterexample): `$like` compiles through SQLAlchemy's
`like` — SQL `LIKE`, not an `ILIKE` equivalent.  On PostgreSQL, where
`LIKE` is case-sensitive, the row value `"abc"` differing from the
pattern `"ABC"` only in case does *not* match (the predicate evaluates
FALSE), while a case-insensitive match would accept it. -/
theorem C6_like_case_sensitive_cx :
    FilterLike_create "ABC" nameCol [] "postgresql" = .ok likeAbcPg ∧
    evalSql "postgresql" rowNameLower likeAbcPg = .vint 0 ∧
    tvLike false (.vstr "abc") (.vstr "ABC") = .vint 1 :=
  ⟨rfl, rfl, rfl⟩

/-- Claim C6 (amended): on a root path with a string-compatible column, a
`$like` leaf compiles to a SQL `LIKE` comparison of the (cast) resolved
value against the (cast) pattern, whose case sensitivity is the dialect's
`LIKE` (case-sensitive on PostgreSQL, case-insensitive ASCII folding on
SQLite/MySQL) rather than an unconditional `ILIKE`. -/
theorem C6_like_emits_like (pat : String) (c : Column) (dialect : String)
    (h : c.type ∈ get_column_type_for_value (.vs pat)) :
    FilterLike_create pat (.column c) [] dialect
      = .ok (.like (create_caster (.column c) [] dialect (.vs pat) (.col c.name))
                   (create_caster (.column c) [] dialect (.vs pat) (.litv (.vs pat)))) := by
  simp [FilterLike_create, create_chain, is_column_type, attrType, get_value_types,
    get_value_ref, attrSql, create_guard, bind, Except.bind, pure, Except.pure, h]

/-- Witness for `C6_like_emits_like`: the `name` column under
PostgreSQL. -/
theorem C6_like_emits_like_witness :
    (Column.mk "name" .AutoString).type ∈ get_column_type_for_value (.vs "ABC") ∧
    FilterLike_create "ABC" nameCol [] "postgresql"
      = .ok (.like (create_caster nameCol [] "postgresql" (.vs "ABC") (.col "name"))
                   (create_caster nameCol [] "postgresql" (.vs "ABC") (.litv (.vs "ABC")))) :=
  ⟨by decide, C6_like_emits_like "ABC" ⟨"name", .AutoString⟩ "postgresql" (by decide)⟩

/-- Claim C8 (counterexample): an entry whose head does *not* name a field
but does name another class attribute — here the inherited method
`Filterable.has` — is not skipped: `getattr` succeeds, the `except
AttributeError` around resolution is not triggered, and the compiler's
`column.type` access raises outside the `try`, so `bind` raises instead of
omitting the clause. -/
theorem C8_method_head_not_skipped_cx :
    Filters_bind personModel "sqlite" {} [("has", .eqF (.vi 1))]
      = .error (.attributeError "'method' object 'has' has no attribute 'type'") := rfl

/-- Claim C8 (amended): an entry whose head resolves to nothing (neither a
field nor any other class attribute) is silently skipped, and every entry
whose head resolves to a field and whose leaf compiles is compiled and
ANDed onto the query in document order; a head naming a non-field class
attribute (a method) is not skipped and makes compilation raise. -/
theorem C8_bind_skips_unknown (m : PyModel) (dialect : String) (q : Query)
    (doc : List (String × FilterLeaf))
    (h : ∀ kf ∈ doc, bindEntryOk m dialect kf = true) :
    Filters_bind m dialect q doc
      = .ok { q with wheres := q.wheres ++ doc.filterMap (bindEntryClause m dialect) } := by
  induction doc generalizing q with
  | nil => simp [Filters_bind]
  | cons kf rest ih =>
    obtain ⟨key, f⟩ := kf
    have hr : ∀ x ∈ rest, bindEntryOk m dialect x = true :=
      fun x hx => h x (List.mem_cons_of_mem _ hx)
    cases hsplit : pySplitAll key '.' with
    | nil =>
      simp only [Filters_bind, hsplit]
      rw [ih q hr]
      congr 1
      simp [bindEntryClause, hsplit]
    | cons head tail =>
      cases hres : modelGetattr m head with
      | error e =>
        simp only [Filters_bind, hsplit, hres]
        rw [ih q hr]
        congr 1
        simp [bindEntryClause, hsplit, hres]
      | ok column =>
        have hk : (f.create column tail dialect).toOption.isSome = true := by
          have h0 := h (key, f) (List.mem_cons_self _ _)
          unfold bindEntryOk at h0
          rw [hsplit] at h0
          dsimp only at h0
          rw [hres] at h0
          exact h0
        cases hcr : f.create column tail dialect with
        | error e => rw [hcr] at hk; simp [Except.toOption] at hk
        | ok bound =>
          simp only [Filters_bind, hsplit, hres, hcr]
          rw [ih _ hr]
          congr 1
          simp [bindEntryClause, hsplit, hres, hcr, Except.toOption]

/-- Witness for `C8_bind_skips_unknown`: one resolving entry and one
unknown-head entry; the unknown head is skipped and the resolving entry's
clause is appended. -/
theorem C8_bind_skips_unknown_witness :
    (∀ kf ∈ [("name", FilterLeaf.eqF (.vs "x")), ("zzz", FilterLeaf.eqF (.vs "y"))],
      bindEntryOk personModel "sqlite" kf = true) ∧
    Filters_bind personModel "sqlite" {}
        [("name", .eqF (.vs "x")), ("zzz", .eqF (.vs "y"))]
      = .ok { wheres := [.eq (.col "name") (.litv (.vs "x"))] } :=
  ⟨by decide,
   C8_bind_skips_unknown personModel "sqlite" {}
     [("name", .eqF (.vs "x")), ("zzz", .eqF (.vs "y"))] (by decide)⟩

/-- Claim C9: a sort token without a direction suffix parses with the
default ascending direction (first conjunct, for any token without a `":"`
whose field resolves); a direction keyword that is neither `asc` nor `desc`
raises the invalid-direction `ValueError` (second and third conjuncts); and
a token with an empty field segment such as `":desc"` makes the sorter
return `None`, so the sorter loop leaves the query unchanged (fourth
conjunct). -/
theorem C9_sort_token_parsing :
    (∀ (m : PyModel) (q : Query) (name : String) (f : PathRes) (g : Sql),
      split1Chars ':' name.toList = (name.toList, Option.none) →
      Filterable_path m name = .ok f →
      Filterable_has f = .ok g →
      SimpleSorter_sort m q name
        = .ok (some { q with wheres := q.wheres ++ [g],
                             orderBys := q.orderBys ++ [(pathResSql f, .ascending)] })) ∧
    (∀ s : String, s ≠ "asc" → s ≠ "desc" →
      Direction_parse s = .error (.valueError ("'" ++ s ++ "' is not a valid Direction"))) ∧
    (∀ q : Query, SimpleSorter_sort personModel q "id:id"
      = .error (.valueError "'id' is not a valid Direction")) ∧
    (∀ (m : PyModel) (pk : String) (q : Query) (msg : String),
      Filterable_path m "" = .error (.attributeError msg) →
      SimpleSorter_sort m q ":desc" = .ok Option.none ∧
      applySorts m pk [":desc"] q = .ok q) := by
  refine ⟨?_, ?_, ?_, ?_⟩
  · intro m q name f g hsplit hpath hhas
    obtain ⟨l⟩ := name
    simp only [SimpleSorter_sort, SimpleSorter_split, pySplit1]
    rw [hsplit]
    simp [Direction_parse, pyLower, hpath, hhas, bind, Except.bind, pure, Except.pure]
  · intro s h1 h2
    simp [Direction_parse, h1, h2]
  · intro q
    rfl
  · intro m pk q msg hpath
    constructor
    · simp only [SimpleSorter_sort, SimpleSorter_split, pySplit1]
      simp [hpath, Direction_parse, pyLower, bind, Except.bind, pure, Except.pure,
        split1Chars]
    · simp only [applySorts]
      have hs : SimpleSorter_sort m q ":desc" = .ok Option.none := by
        simp only [SimpleSorter_sort, SimpleSorter_split, pySplit1]
        simp [hpath, Direction_parse, pyLower, bind, Except.bind, pure, Except.pure,
          split1Chars]
      simp [hs, bind, Except.bind, pure, Except.pure, applySorts]

/-- Witness for `C9_sort_token_parsing`: the token `"age"` sorts ascending
on the `Person` model, and `":desc"` is skipped there. -/
theorem C9_sort_token_parsing_witness :
    split1Chars ':' "age".toList = ("age".toList, Option.none) ∧
    Filterable_path personModel "age" = .ok (.attr ageCol) ∧
    SimpleSorter_sort personModel {} "age"
      = .ok (some { wheres := [.isNotNull (.col "age")],
                    orderBys := [(.col "age", .ascending)] }) ∧
    Filterable_path personModel ""
      = .error (.attributeError "type object has no attribute ''") ∧
    SimpleSorter_sort personModel {} ":desc" = .ok Option.none ∧
    applySorts personModel "id" [":desc"] {} = .ok {} :=
  ⟨rfl, rfl,
   C9_sort_token_parsing.1 personModel {} "age" (.attr ageCol) (.isNotNull (.col "age"))
     rfl rfl rfl,
   rfl,
   (C9_sort_token_parsing.2.2.2 personModel "id" {} "type object has no attribute ''" rfl).1,
   (C9_sort_token_parsing.2.2.2 personModel "id" {} "type object has no attribute ''" rfl).2⟩

/-- Claim C10: a boolean comparable is dispatched as a boolean everywhere,
never as an integer, although `isinstance(True, int)` holds: the
column-type registry maps booleans to the `BOOLEAN` set (distinct from the
integer set), the PostgreSQL caster casts booleans to `BOOLEAN`, and the
JSON-token registry keys on the exact runtime type, giving the boolean
tokens on every dialect (distinct from the integer tokens where the
dialect separates them). -/
theorem C10_bool_never_integer (b : Bool) :
    get_column_type_for_value (.vb b) = AnyBool ∧
    AnyBool ≠ AnyInteger ∧
    pyIsInt (.vb b) = true ∧
    (∀ (c : PyAttr) (ch : List String) (e : Sql),
      create_caster c ch "postgresql" (.vb b) e = .castTo e .Boolean) ∧
    get_json_type_for_value (.vs "sqlite") (.vb b) = .ok ["true", "false"] ∧
    get_json_type_for_value (.vs "mysql") (.vb b) = .ok ["BOOLEAN"] ∧
    get_json_type_for_value (.vs "mariadb") (.vb b) = .ok ["BOOLEAN"] ∧
    get_json_type_for_value (.vs "postgresql") (.vb b) = .ok ["boolean"] ∧
    get_json_type_for_value (.vs "mssql") (.vb b) = .ok ["boolean"] ∧
    get_json_type_for_value (.vs "oracle") (.vb b) = .ok ["boolean"] ∧
    get_json_type_for_value (.vs "sqlite") (.vb b)
      ≠ get_json_type_for_value (.vs "sqlite") (.vi 1) :=
  ⟨rfl, by decide, rfl, fun c ch e => rfl, rfl, rfl, rfl, rfl, rfl, rfl,
   by cases b <;> simp [get_json_type_for_value, jsonTypesGet, jsonTypesTable, pyType]⟩
